import Mathlib

/-!
Shallow embedding of the frame-extraction and PDF-assembly core of
`src/youtube_screenshot_pdf.py`.

Python floats are modelled as rationals (`ℚ`); the external world (the
decoder, the external seek tool, the filesystem) is modelled by explicit
environments of oracles, one per externally observable call, so that the
pure control flow of the Python code is captured exactly.  Line numbers in
the doc comments refer to `src/youtube_screenshot_pdf.py`.
-/

/-- Python `int(x)` applied to a float, modelled on `ℚ`: truncation toward
zero. -/
def pyInt (q : ℚ) : ℤ := if q < 0 then ⌈q⌉ else ⌊q⌋

/-- Python `max(xs)` on a nonempty list of floats (line 195); the `[]` case
is arbitrary because the source only calls it under `len(timestamps) > 0`. -/
def pyMax : List ℚ → ℚ
  | [] => 0
  | x :: xs => xs.foldl max x

/-- Python `timestamps.sort()` (line 448 of `main`, line 1056 of the GUI
worker): ascending stable sort. -/
def pySort (l : List ℚ) : List ℚ := List.insertionSort (fun a b => a ≤ b) l

/-- Length of Python `range(0, stop, step)` for positive `step`. -/
def pyRangeLen (stop : ℤ) (step : ℕ) : ℕ :=
  if stop ≤ 0 then 0 else (stop.toNat + step - 1) / step

/-- Python `list(range(0, stop, step))` for positive `step`:
`[0, step, 2*step, ...]`, all strictly below `stop`. -/
def pyRange0 (stop : ℤ) (step : ℕ) : List ℕ :=
  (List.range (pyRangeLen stop step)).map (fun k => k * step)

/-- Lines 157-158: `generate_interval_timestamps(duration, interval)` is
`list(range(0, int(duration) + 1, interval))`. -/
def generate_interval_timestamps (duration : ℚ) (interval : ℕ) : List ℕ :=
  pyRange0 (pyInt duration + 1) interval

/-- Python format `f"{i:03d}"`: decimal digits of `i`, zero-padded to width
three. -/
def pad3 (n : ℕ) : String :=
  if n < 10 then "00" ++ toString n
  else if n < 100 then "0" ++ toString n
  else toString n

/-- Line 219: the per-capture output filename
`f"screenshot_{i:03d}_{int(timestamp)}s.jpg"` (the enclosing directory is
fixed per run and not part of the model). -/
def screenshotFilename (i : ℕ) (t : ℚ) : String :=
  "screenshot_" ++ pad3 i ++ "_" ++ toString (pyInt t) ++ "s.jpg"

/-- Lines 184-196: the duration probe inside `capture_screenshots`.
`fps` is the raw `cap.get(CAP_PROP_FPS)` value, `frameCountRaw` the raw
`cap.get(CAP_PROP_FRAME_COUNT)` value (the code takes `int(...)` of it),
`posMsec` the raw `cap.get(CAP_PROP_POS_MSEC)` value. -/
def probeDuration (isLocal : Bool) (fps frameCountRaw posMsec : ℚ)
    (timestamps : List ℚ) : ℚ :=
  let total_frames : ℤ := pyInt frameCountRaw
  if isLocal = true ∧ 0 < fps ∧ 0 < total_frames then
    (total_frames : ℚ) / fps
  else
    let d := posMsec / 1000
    if d ≤ 0 ∧ timestamps ≠ [] ∧ 0 < pyMax timestamps then
      pyMax timestamps + 60
    else d

/-- Line 202: `valid_timestamps = [t for t in timestamps if 0 <= t <= duration]`. -/
def validTimestamps (duration : ℚ) (timestamps : List ℚ) : List ℚ :=
  timestamps.filter (fun t => decide (0 ≤ t ∧ t ≤ duration))

/-- Line 272: the JPEG quality constant passed to `cv2.imwrite` on the
decode-seek fallback path. -/
def imwriteJpegQuality : ℕ := 95

/-- Outcomes of the externally visible calls made by one iteration of the
retry loop (lines 216-288) for one timestamp.  `ffmpegOk` bundles the
external tool run: it is `true` when the process exits with status 0, did
not time out, and left a nonempty output file (line 245).  `cvOpens` is
`cap.isOpened()` for the freshly opened decoder (line 256), `cvReadAt p` is
the `ret` flag of `cap.read()` after seeking to frame `p` (line 268), and
`cvWriteOk` is whether `cv2.imwrite` left a nonempty file (line 275). -/
structure AttemptEnv where
  ffmpegOk : Bool
  cvOpens : Bool
  cvReadAt : ℤ → Bool
  cvWriteOk : Bool

/-- Lines 224-249: the external-tool strategy of one attempt succeeds iff
the tool is on the PATH (`shutil.which('ffmpeg')`) and its invocation
produced a nonempty frame file with exit status 0. -/
def ffmpegRunOk (ffmpegAvail : Bool) (e : AttemptEnv) : Bool :=
  ffmpegAvail && e.ffmpegOk

/-- Lines 254-281: the decode-seek fallback of one attempt.  It opens the
media, computes `frame_pos = int(timestamp * fps)`, seeks to
`max(0, frame_pos)`, reads one frame, and on a returned frame persists it
with `cv2.imwrite` at JPEG quality `imwriteJpegQuality`; it succeeds iff
the decoder returned a frame and the written file is nonempty. -/
def cvAttemptOk (fps t : ℚ) (e : AttemptEnv) : Bool :=
  e.cvOpens && (e.cvReadAt (max 0 (pyInt (t * fps))) && e.cvWriteOk)

/-- One iteration of the retry loop for one timestamp (lines 216-288):
the external tool first (when available), the decode-seek fallback second. -/
def attemptSucceeds (ffmpegAvail : Bool) (fps t : ℚ) (e : AttemptEnv) : Bool :=
  ffmpegRunOk ffmpegAvail e || cvAttemptOk fps t e

/-- Lines 216-288: `for retry in range(max_retries)` with `break` on
success.  `retry` is the 0-based index of the current iteration,
`remaining` the number of iterations still allowed; the result is the
success flag together with the number of iterations actually executed. -/
def captureLoop (ffmpegAvail : Bool) (fps t : ℚ) (env : ℕ → AttemptEnv) :
    ℕ → ℕ → Bool × ℕ
  | retry, 0 => (false, retry)
  | retry, remaining + 1 =>
    if attemptSucceeds ffmpegAvail fps t (env retry) then (true, retry + 1)
    else captureLoop ffmpegAvail fps t env (retry + 1) remaining

/-- Per-timestamp capture record (the spec's `CaptureResult`): 1-based
sequence index, the timestamp, whether capture succeeded, how many retry
iterations ran, and the produced image path (present iff successful). -/
structure CaptureResult where
  index : ℕ
  timestamp : ℚ
  success : Bool
  attemptsUsed : ℕ
  imagePath : Option String
  deriving DecidableEq, Repr

/-- Capture of the single timestamp `t` with 1-based sequence index `i`
(lines 214-291): run the retry loop; a successful run contributes the file
`screenshotFilename i t`, a failed one contributes nothing. -/
def captureOne (maxRetries : ℕ) (ffmpegAvail : Bool) (fps : ℚ) (i : ℕ)
    (t : ℚ) (env : ℕ → AttemptEnv) : CaptureResult :=
  let r := captureLoop ffmpegAvail fps t env 0 maxRetries
  ⟨i, t, r.1, r.2, if r.1 then some (screenshotFilename i t) else none⟩

/-- Lines 214-291: `for i, timestamp in enumerate(valid_timestamps, 1)`.
`j` is the 0-based position of the head of the remaining list;
`env j r` gives the oracle outcomes for retry iteration `r` of timestamp
number `j`. -/
def runCaptureAux (maxRetries : ℕ) (ffmpegAvail : Bool) (fps : ℚ)
    (env : ℕ → ℕ → AttemptEnv) : ℕ → List ℚ → List CaptureResult
  | _, [] => []
  | j, t :: ts =>
    captureOne maxRetries ffmpegAvail fps (j + 1) t (env j) ::
      runCaptureAux maxRetries ffmpegAvail fps env (j + 1) ts

/-- The capture loop over the whole validated timestamp list, starting the
1-based enumeration at 1. -/
def runCapture (maxRetries : ℕ) (ffmpegAvail : Bool) (fps : ℚ)
    (env : ℕ → ℕ → AttemptEnv) (ts : List ℚ) : List CaptureResult :=
  runCaptureAux maxRetries ffmpegAvail fps env 0 ts

/-- Outcomes of the externally visible calls of the duration-probe block
(lines 177-211).  `ctorRaises`: `cv2.VideoCapture(video_path)` itself
raises; `canOpen`: `cap.isOpened()`; `probeRaises`: some later call inside
the `try` block (lines 184-208) raises.  `fps`, `frameCountRaw`, `posMsec`
are the raw decoder-reported values; `fps` doubles as the native frame rate
used by the decode-seek fallback, which reopens the same media. -/
structure ProbeEnv where
  ctorRaises : Bool
  canOpen : Bool
  probeRaises : Bool
  fps : ℚ
  frameCountRaw : ℚ
  posMsec : ℚ

/-- How `capture_screenshots` leaves its validation phase: the source is
unreadable (line 182: `return []` before any capture), the filtered list is
empty (line 208: `return []` before any capture), or the per-timestamp
capture loop runs over a list of timestamps and yields their records. -/
inductive CaptureExit where
  | sourceUnreadable : CaptureExit
  | noValidTimestamps : CaptureExit
  | completed : List CaptureResult → CaptureExit
  deriving DecidableEq

/-- Lines 161-294: `capture_screenshots` control flow.  The `try` block of
the probe: if the decoder constructor raises, the `except` arm keeps the
requested list unfiltered (line 211) and the loop runs over it; if the
media does not open, return immediately; if a later probe call raises, the
list is likewise unfiltered; otherwise the list is filtered against the
probed duration and an empty remainder returns immediately. -/
def captureRun (maxRetries : ℕ) (ffmpegAvail isLocal : Bool)
    (probe : ProbeEnv) (env : ℕ → ℕ → AttemptEnv) (timestamps : List ℚ) :
    CaptureExit :=
  if probe.ctorRaises = true then
    CaptureExit.completed (runCapture maxRetries ffmpegAvail probe.fps env timestamps)
  else if probe.canOpen = false then
    CaptureExit.sourceUnreadable
  else if probe.probeRaises = true then
    CaptureExit.completed (runCapture maxRetries ffmpegAvail probe.fps env timestamps)
  else
    let duration :=
      probeDuration isLocal probe.fps probe.frameCountRaw probe.posMsec timestamps
    let valid := validTimestamps duration timestamps
    if valid = [] then CaptureExit.noValidTimestamps
    else CaptureExit.completed (runCapture maxRetries ffmpegAvail probe.fps env valid)

/-- Lines 161-294: the value `capture_screenshots` returns — the ordered
list of image paths of the successful captures, `[]` on either early
return. -/
def capture_screenshots (maxRetries : ℕ) (ffmpegAvail isLocal : Bool)
    (probe : ProbeEnv) (env : ℕ → ℕ → AttemptEnv) (timestamps : List ℚ) :
    List String :=
  match captureRun maxRetries ffmpegAvail isLocal probe env timestamps with
  | CaptureExit.sourceUnreadable => []
  | CaptureExit.noValidTimestamps => []
  | CaptureExit.completed results => results.filterMap (fun r => r.imagePath)

/-- Line 161: the default value of the `max_retries` parameter of
`capture_screenshots`. -/
def max_retries_default : ℕ := 3

/-- Lines 71-79: `Utils.sanitize_title` — every non-ASCII character is
replaced by an underscore. -/
def sanitize_title (s : String) : String :=
  String.mk (s.data.map (fun c => if c.toNat < 128 then c else '_'))

/-- Fuel-driven 45-character chunking, modelling line 329:
`[sanitized_title[i:i+45] for i in range(0, len(sanitized_title), 45)]`.
The fuel is initialised to the list length, which suffices because every
step consumes at least one character. -/
def chunk45 : ℕ → List Char → List (List Char)
  | _, [] => []
  | 0, _ :: _ => []
  | fuel + 1, c :: cs => ((c :: cs).take 45) :: chunk45 fuel ((c :: cs).drop 45)

/-- Line 329: the wrapped title lines placed on the title page. -/
def titleLines (title : String) : List String :=
  (chunk45 (sanitize_title title).data.length (sanitize_title title).data).map
    (fun l => String.mk l)

/-- One page of the assembled document: the title page (lines 320-335),
carrying the wrapped title lines and the screenshot count, or one
full-bleed image page (lines 338-340). -/
inductive Page where
  | titlePage : List String → ℕ → Page
  | imagePage : String → Page
  deriving DecidableEq

/-- Lines 320-340: the page sequence of the assembled document — the title
page first, then exactly one page per image path, in list order. -/
def buildPages (image_paths : List String) (title : String) : List Page :=
  Page.titlePage (titleLines title) image_paths.length ::
    image_paths.map (fun p => Page.imagePage p)

/-- Outcomes of the externally visible calls of `create_pdf`
(lines 297-362).  `buildRaises`: some call before `pdf.output` raises
(directory creation, font selection, reading an image file);
`outputRaises`: `pdf.output(output_pdf)` itself raises (e.g. unwritable
path); `removeFails p`: `os.remove(p)` raises `OSError`. -/
structure PdfEnv where
  buildRaises : Bool
  outputRaises : Bool
  removeFails : String → Bool

/-- Result of `create_pdf`: the boolean the function returns, the page
sequence of the written document (`none` when nothing was written), and the
list of temporary image files actually deleted. -/
structure PdfOutcome where
  ok : Bool
  doc : Option (List Page)
  deleted : List String

/-- Lines 297-362: `create_pdf`.  Any exception inside the `try` block
before or during `pdf.output` is caught by the outer `except`, which
returns `False` — and since the cleanup loop (lines 346-350) only runs
after a successful `pdf.output`, no image file has been removed at that
point.  After a successful write every image path is passed to
`os.remove`; a per-file `OSError` only prints a warning (line 350) and the
function still returns `True`. -/
def create_pdf (env : PdfEnv) (image_paths : List String) (title : String) :
    PdfOutcome :=
  if env.buildRaises = true then ⟨false, none, []⟩
  else if env.outputRaises = true then ⟨false, none, []⟩
  else
    ⟨true, some (buildPages image_paths title),
      image_paths.filter (fun p => env.removeFails p = false)⟩

/-- Lines 1079-1092: the GUI worker captures each timestamp through its own
single-element `capture_screenshots` call, concatenating the produced image
paths in timestamp order (the GUI sorts the list first, line 1056). -/
def guiWorkerImages (maxRetries : ℕ) (ffmpegAvail isLocal : Bool)
    (probe : ProbeEnv) (env : ℕ → ℕ → AttemptEnv) (timestamps : List ℚ) :
    List String :=
  (pySort timestamps).foldl
    (fun acc t =>
      acc ++ capture_screenshots maxRetries ffmpegAvail isLocal probe env [t])
    []

/-- A probe environment for a readable local file whose decoder reports
30 fps and 3600 frames, so the probed duration is 120 seconds. -/
def okProbe : ProbeEnv := ⟨false, true, false, 30, 3600, 0⟩

/-- An attempt environment in which every external call succeeds. -/
def allOkAttempt : AttemptEnv := ⟨true, true, fun _ => true, true⟩

/-- An attempt environment in which both strategies fail on every call. -/
def allFailAttempt : AttemptEnv := ⟨false, false, fun _ => false, false⟩

/-- A `create_pdf` environment in which every filesystem call succeeds. -/
def okPdfEnv : PdfEnv := ⟨false, false, fun _ => false⟩

/-- The requested timestamps of the spec's worked scenario. -/
def scenarioRequested : List ℚ := [10, 130, 60]

/-- The title used in the worked scenario. -/
def scenarioTitle : String := "Demo Video"

/-- The image paths produced by the worked scenario: duration 120 s,
requested timestamps [10, 130, 60] sorted by `main` before capture, every
external call succeeding. -/
def scenarioImages : List String :=
  capture_screenshots 3 true true okProbe (fun _ _ => allOkAttempt)
    (pySort scenarioRequested)

/-- The document pages assembled from the worked scenario's images. -/
def scenarioPages : List Page := buildPages scenarioImages scenarioTitle

/-! Helper lemmas about the embedded operations. -/

theorem le_foldl_max_init (l : List ℚ) : ∀ a : ℚ, a ≤ l.foldl max a := by
  induction l with
  | nil => intro a; exact le_refl a
  | cons x xs ih => intro a; exact le_trans (le_max_left a x) (ih (max a x))

theorem le_foldl_max_mem (l : List ℚ) : ∀ (a t : ℚ), t ∈ l → t ≤ l.foldl max a := by
  induction l with
  | nil => intro a t h; cases h
  | cons x xs ih =>
    intro a t h
    rcases List.mem_cons.mp h with h | h
    · subst h; exact le_trans (le_max_right a t) (le_foldl_max_init xs (max a t))
    · exact ih (max a x) t h

theorem le_pyMax {l : List ℚ} {t : ℚ} (h : t ∈ l) : t ≤ pyMax l := by
  cases l with
  | nil => cases h
  | cons x xs =>
    rcases List.mem_cons.mp h with h | h
    · subst h; exact le_foldl_max_init xs t
    · exact le_foldl_max_mem xs x t h

theorem captureLoop_all_fail (ff : Bool) (fps t : ℚ) (env : ℕ → AttemptEnv)
    (h : ∀ r, attemptSucceeds ff fps t (env r) = false) :
    ∀ (remaining retry : ℕ),
      captureLoop ff fps t env retry remaining = (false, retry + remaining) := by
  intro remaining
  induction remaining with
  | zero => intro retry; simp [captureLoop]
  | succ k ih =>
    intro retry
    rw [captureLoop, h retry]
    simp only [Bool.false_eq_true, if_false]
    rw [ih (retry + 1)]
    congr 1
    omega

theorem runCaptureAux_length (maxRetries : ℕ) (ff : Bool) (fps : ℚ)
    (env : ℕ → ℕ → AttemptEnv) :
    ∀ (ts : List ℚ) (j : ℕ),
      (runCaptureAux maxRetries ff fps env j ts).length = ts.length := by
  intro ts
  induction ts with
  | nil => intro j; rfl
  | cons t ts ih => intro j; simp [runCaptureAux, ih (j + 1)]

theorem runCaptureAux_get (maxRetries : ℕ) (ff : Bool) (fps : ℚ)
    (env : ℕ → ℕ → AttemptEnv) :
    ∀ (ts : List ℚ) (j k : ℕ),
      (runCaptureAux maxRetries ff fps env j ts).get? k =
        (ts.get? k).map (fun t => captureOne maxRetries ff fps (j + k + 1) t (env (j + k))) := by
  intro ts
  induction ts with
  | nil => intro j k; rfl
  | cons t ts ih =>
    intro j k
    cases k with
    | zero => simp [runCaptureAux]
    | succ k =>
      simp only [runCaptureAux, List.get?]
      rw [ih (j + 1) k]
      have h1 : j + 1 + k = j + (k + 1) := by omega
      rw [h1]

theorem runCaptureAux_map_timestamp (maxRetries : ℕ) (ff : Bool) (fps : ℚ)
    (env : ℕ → ℕ → AttemptEnv) :
    ∀ (ts : List ℚ) (j : ℕ),
      (runCaptureAux maxRetries ff fps env j ts).map (fun r => r.timestamp) = ts := by
  intro ts
  induction ts with
  | nil => intro j; rfl
  | cons t ts ih => intro j; simp [runCaptureAux, captureOne, ih (j + 1)]

theorem runCaptureAux_filterMap_imagePath (maxRetries : ℕ) (ff : Bool) (fps : ℚ)
    (env : ℕ → ℕ → AttemptEnv) :
    ∀ (ts : List ℚ) (j : ℕ),
      (runCaptureAux maxRetries ff fps env j ts).filterMap (fun r => r.imagePath) =
        ((runCaptureAux maxRetries ff fps env j ts).filter (fun r => r.success)).map
          (fun r => screenshotFilename r.index r.timestamp) := by
  intro ts
  induction ts with
  | nil => intro j; rfl
  | cons t ts ih =>
    intro j
    simp only [runCaptureAux, List.filterMap_cons, List.filter_cons]
    cases hs : (captureLoop ff fps t (env j) 0 maxRetries).1 with
    | false => simp [captureOne, hs, ih (j + 1)]
    | true => simp [captureOne, hs, ih (j + 1)]

theorem okProbeDuration (ts : List ℚ) : probeDuration true 30 3600 0 ts = 120 := by
  have h3 : (0 : ℤ) < pyInt 3600 := by decide
  have hf : pyInt 3600 = 3600 := by decide
  simp only [probeDuration]
  rw [if_pos ⟨trivial, by norm_num, h3⟩, hf]
  norm_num

/-! Claim theorems. -/

/-- C1: for every requested timestamp list and probed duration, the
validation performed by `capture_screenshots` (line 202) outputs a subset
of the input list preserving its order — in particular ascending input
stays ascending — every output element satisfies `0 ≤ t ≤ duration`,
every in-range input element is kept unchanged, and every out-of-range
entry is dropped rather than clamped. -/
theorem validator_subset_ordered_bounded (duration : ℚ) (ts : List ℚ) :
    List.Sublist (validTimestamps duration ts) ts ∧
    (∀ t ∈ validTimestamps duration ts, 0 ≤ t ∧ t ≤ duration) ∧
    (∀ t ∈ ts, 0 ≤ t → t ≤ duration → t ∈ validTimestamps duration ts) ∧
    (∀ t ∈ ts, ¬(0 ≤ t ∧ t ≤ duration) → t ∉ validTimestamps duration ts) ∧
    (List.Pairwise (fun a b => a ≤ b) ts →
      List.Pairwise (fun a b => a ≤ b) (validTimestamps duration ts)) := by
  refine ⟨List.filter_sublist ts, ?_, ?_, ?_, ?_⟩
  · intro t ht
    have h := (List.mem_filter.mp ht).2
    simpa using h
  · intro t ht h0 h1
    exact List.mem_filter.mpr ⟨ht, by simpa using And.intro h0 h1⟩
  · intro t _ hn hmem
    exact hn (by simpa using (List.mem_filter.mp hmem).2)
  · intro hp
    exact hp.sublist (List.filter_sublist ts)

/-- Witness for C1 at duration 120 and the scenario's requested list. -/
theorem validator_subset_ordered_bounded_witness :
    List.Sublist (validTimestamps 120 scenarioRequested) scenarioRequested ∧
    (10 : ℚ) ∈ validTimestamps 120 scenarioRequested := by
  refine ⟨(validator_subset_ordered_bounded 120 scenarioRequested).1, ?_⟩
  exact (validator_subset_ordered_bounded 120 scenarioRequested).2.2.1 10
    (by decide) (by decide) (by decide)

/-- C2: the duration probe of `capture_screenshots` (lines 184-196)
follows the cascade — local file with positive frame rate and positive
truncated frame count gives `frameCount / frameRate`; otherwise the
decoder-reported elapsed position (`POS_MSEC / 1000`) is used; and when
that is non-positive and some requested timestamp is positive, the probe
falls back to `max(timestamps) + 60`. -/
theorem duration_probe_cascade (isLocal : Bool) (fps frameCountRaw posMsec : ℚ)
    (ts : List ℚ) :
    (isLocal = true → 0 < fps → 0 < pyInt frameCountRaw →
      probeDuration isLocal fps frameCountRaw posMsec ts = (pyInt frameCountRaw : ℚ) / fps) ∧
    (¬(isLocal = true ∧ 0 < fps ∧ 0 < pyInt frameCountRaw) → 0 < posMsec / 1000 →
      probeDuration isLocal fps frameCountRaw posMsec ts = posMsec / 1000) ∧
    (¬(isLocal = true ∧ 0 < fps ∧ 0 < pyInt frameCountRaw) → posMsec / 1000 ≤ 0 →
      (∃ t ∈ ts, 0 < t) →
      probeDuration isLocal fps frameCountRaw posMsec ts = pyMax ts + 60) := by
  refine ⟨?_, ?_, ?_⟩
  · intro h1 h2 h3
    simp only [probeDuration]
    rw [if_pos ⟨h1, h2, h3⟩]
  · intro hn hpos
    simp only [probeDuration]
    rw [if_neg hn, if_neg]
    intro hc
    exact absurd hc.1 (not_le.mpr hpos)
  · intro hn hle hex
    obtain ⟨t, htmem, htpos⟩ := hex
    have hne : ts ≠ [] := by
      intro h
      subst h
      cases htmem
    have hmax : 0 < pyMax ts := lt_of_lt_of_le htpos (le_pyMax htmem)
    simp only [probeDuration]
    rw [if_neg hn, if_pos ⟨hle, hne, hmax⟩]

/-- Witness for C2: a local file at 1 fps with 120 frames probes as 120 s. -/
theorem duration_probe_cascade_witness : probeDuration true 1 120 0 [] = 120 := by
  have h := (duration_probe_cascade true 1 120 0 []).1 rfl one_pos (by decide)
  rw [h]
  simp [pyInt]

/-- C9: interval-mode generation (lines 157-158) produces
`[0, interval, 2*interval, ...]` bounded by the duration: every entry is at
most the duration, the k-th entry is `k * interval` (so consecutive entries
differ by exactly the interval), and interval 30 with duration 95 yields
`[0, 30, 60, 90]`. -/
theorem interval_generation_spec (duration : ℚ) (interval : ℕ)
    (hd : 0 ≤ duration) (hi : 0 < interval) :
    (∀ t ∈ generate_interval_timestamps duration interval, (t : ℚ) ≤ duration) ∧
    (∀ k : ℕ, k < (generate_interval_timestamps duration interval).length →
      (generate_interval_timestamps duration interval).get? k = some (k * interval)) ∧
    (∀ k : ℕ, k + 1 < (generate_interval_timestamps duration interval).length →
      (generate_interval_timestamps duration interval).get? (k + 1) =
        ((generate_interval_timestamps duration interval).get? k).map
          (fun a => a + interval)) ∧
    generate_interval_timestamps 95 30 = [0, 30, 60, 90] := by
  have hfloor : pyInt duration = ⌊duration⌋ := by
    rw [pyInt, if_neg (not_lt.mpr hd)]
  have hfnn : (0 : ℤ) ≤ ⌊duration⌋ := Int.floor_nonneg.mpr hd
  have hstop : ¬(pyInt duration + 1 ≤ 0) := by rw [hfloor]; omega
  have hlen : pyRangeLen (pyInt duration + 1) interval =
      ((pyInt duration + 1).toNat + interval - 1) / interval := by
    rw [pyRangeLen, if_neg hstop]
  have hbound : ∀ k : ℕ, k < pyRangeLen (pyInt duration + 1) interval →
      ((k * interval : ℕ) : ℚ) ≤ duration := by
    intro k hk
    rw [hlen] at hk
    have h2 : (k + 1) * interval ≤ (pyInt duration + 1).toNat + interval - 1 :=
      (Nat.le_div_iff_mul_le hi).mp hk
    have htn : (pyInt duration + 1).toNat = ⌊duration⌋.toNat + 1 := by
      rw [hfloor]; omega
    rw [htn, add_mul, one_mul] at h2
    have h3 : k * interval ≤ ⌊duration⌋.toNat := by omega
    have h4 : ((k * interval : ℕ) : ℚ) ≤ ((⌊duration⌋.toNat : ℕ) : ℚ) := by
      exact_mod_cast h3
    have h5 : ((⌊duration⌋.toNat : ℕ) : ℚ) = ((⌊duration⌋ : ℤ) : ℚ) := by
      rw [show ((⌊duration⌋.toNat : ℕ) : ℚ) = (((⌊duration⌋.toNat : ℕ) : ℤ) : ℚ) by push_cast; ring,
        Int.toNat_of_nonneg hfnn]
    exact le_trans h4 (h5.trans_le (Int.floor_le duration))
  have hgetlen : (generate_interval_timestamps duration interval).length =
      pyRangeLen (pyInt duration + 1) interval := by
    simp [generate_interval_timestamps, pyRange0]
  have hget : ∀ k : ℕ, k < (generate_interval_timestamps duration interval).length →
      (generate_interval_timestamps duration interval).get? k = some (k * interval) := by
    intro k hk
    rw [hgetlen] at hk
    simp only [generate_interval_timestamps, pyRange0]
    rw [List.get?_map, List.get?_range hk]
    rfl
  refine ⟨?_, hget, ?_, by decide⟩
  · intro t ht
    simp only [generate_interval_timestamps, pyRange0] at ht
    rcases List.mem_map.mp ht with ⟨k, hk, rfl⟩
    exact hbound k (List.mem_range.mp hk)
  · intro k hk
    rw [hget (k + 1) hk, hget k (by omega)]
    simp only [Option.map_some']
    rw [add_mul, one_mul]

/-- Witness for C9: the concrete scenario instance. -/
theorem interval_generation_spec_witness :
    generate_interval_timestamps 95 30 = [0, 30, 60, 90] :=
  (interval_generation_spec 95 30 (by decide) (by decide)).2.2.2

/-- C10: if the duration probe raises — either the decoder constructor
itself (line 179) or any later probe call (lines 184-208) after the media
opened — `capture_screenshots` does not abort and performs no filtering:
the capture loop runs over every requested timestamp unchanged
(line 211). -/
theorem probe_exception_keeps_all_timestamps (maxRetries : ℕ)
    (ff isLocal : Bool) (probe : ProbeEnv) (env : ℕ → ℕ → AttemptEnv)
    (ts : List ℚ)
    (h : probe.ctorRaises = true ∨
      (probe.canOpen = true ∧ probe.probeRaises = true)) :
    captureRun maxRetries ff isLocal probe env ts =
      CaptureExit.completed (runCapture maxRetries ff probe.fps env ts) := by
  rcases h with h | ⟨h1, h2⟩
  · simp [captureRun, h]
  · by_cases hc : probe.ctorRaises = true
    · simp [captureRun, hc]
    · simp [captureRun, hc, h1, h2]

/-- A probe environment whose later probe calls raise. -/
def raisingProbe : ProbeEnv := ⟨false, true, true, 30, 3600, 0⟩

/-- Witness for C10: with a raising probe, the out-of-range timestamp 500
is still handed to the capture loop. -/
theorem probe_exception_keeps_all_timestamps_witness :
    captureRun 3 true true raisingProbe (fun _ _ => allOkAttempt) [500] =
      CaptureExit.completed
        (runCapture 3 true raisingProbe.fps (fun _ _ => allOkAttempt) [500]) :=
  probe_exception_keeps_all_timestamps 3 true true raisingProbe
    (fun _ _ => allOkAttempt) [500] (Or.inr ⟨rfl, rfl⟩)

/-- C8: when the probe completes and the filtered timestamp list is empty,
`capture_screenshots` exits through the `NoValidTimestamps` return
(line 208) with an empty image list and without entering the capture loop;
and when the media cannot be opened at all, it exits through the
`SourceUnreadable` return (line 182), likewise with no captures. -/
theorem empty_or_unreadable_aborts (maxRetries : ℕ) (ff isLocal : Bool)
    (probe : ProbeEnv) (env : ℕ → ℕ → AttemptEnv) (ts : List ℚ) :
    (probe.ctorRaises = false → probe.canOpen = true →
      probe.probeRaises = false →
      validTimestamps
        (probeDuration isLocal probe.fps probe.frameCountRaw probe.posMsec ts)
        ts = [] →
      captureRun maxRetries ff isLocal probe env ts =
          CaptureExit.noValidTimestamps ∧
        capture_screenshots maxRetries ff isLocal probe env ts = []) ∧
    (probe.ctorRaises = false → probe.canOpen = false →
      captureRun maxRetries ff isLocal probe env ts =
          CaptureExit.sourceUnreadable ∧
        capture_screenshots maxRetries ff isLocal probe env ts = []) := by
  constructor
  · intro h1 h2 h3 hv
    have hrun : captureRun maxRetries ff isLocal probe env ts =
        CaptureExit.noValidTimestamps := by
      simp [captureRun, h1, h2, h3, hv]
    exact ⟨hrun, by simp [capture_screenshots, hrun]⟩
  · intro h1 h2
    have hrun : captureRun maxRetries ff isLocal probe env ts =
        CaptureExit.sourceUnreadable := by
      simp [captureRun, h1, h2]
    exact ⟨hrun, by simp [capture_screenshots, hrun]⟩

/-- C3: a timestamp whose extraction fails under both strategies on every
attempt uses exactly `maxRetries` iterations of the two-strategy sequence
(the source default being 3), is recorded as failed with no image path,
and the remaining timestamps are still processed: the result list keeps
one entry per timestamp and every other entry is exactly the capture of
its own timestamp, unaffected by the failure. -/
theorem retry_exhaustion_isolated (maxRetries : ℕ) (ff : Bool) (fps : ℚ)
    (env : ℕ → ℕ → AttemptEnv) (ts : List ℚ) (j : ℕ) (t : ℚ)
    (hj : ts.get? j = some t)
    (hfail : ∀ r, attemptSucceeds ff fps t (env j r) = false) :
    (runCapture maxRetries ff fps env ts).get? j =
      some ⟨j + 1, t, false, maxRetries, none⟩ ∧
    (runCapture maxRetries ff fps env ts).length = ts.length ∧
    (∀ k, k ≠ j → (runCapture maxRetries ff fps env ts).get? k =
      (ts.get? k).map (fun u => captureOne maxRetries ff fps (k + 1) u (env k))) ∧
    max_retries_default = 3 := by
  refine ⟨?_, ?_, ?_, rfl⟩
  · rw [runCapture, runCaptureAux_get maxRetries ff fps env ts 0 j, hj]
    simp only [Nat.zero_add, Option.map_some']
    have hloop := captureLoop_all_fail ff fps t (env j) hfail maxRetries 0
    simp [captureOne, hloop]
  · exact runCaptureAux_length maxRetries ff fps env ts 0
  · intro k _
    rw [runCapture, runCaptureAux_get maxRetries ff fps env ts 0 k]
    simp

/-- Witness for C3: a single always-failing timestamp with the default
retry budget. -/
theorem retry_exhaustion_isolated_witness :
    (runCapture 3 true 30 (fun _ _ => allFailAttempt) [5]).get? 0 =
      some ⟨1, 5, false, 3, none⟩ :=
  (retry_exhaustion_isolated 3 true 30 (fun _ _ => allFailAttempt) [5] 0 5 rfl
    (fun _ => rfl)).1

/-- C6: when the external seek tool is unavailable or its run fails
(`ffmpegRunOk = false`), an attempt for a timestamp falls back to
decode-seek: with the media opened, the attempt succeeds exactly when the
decoder returned a frame after seeking to `max(0, int(timestamp * fps))`
and the persisted file is nonempty; the persisting write uses JPEG quality
95. -/
theorem decode_seek_fallback (ff : Bool) (fps t : ℚ) (e : AttemptEnv)
    (htool : ffmpegRunOk ff e = false) (hopen : e.cvOpens = true) :
    (attemptSucceeds ff fps t e = true ↔
      (e.cvReadAt (max 0 (pyInt (t * fps))) = true ∧ e.cvWriteOk = true)) ∧
    imwriteJpegQuality = 95 ∧ 95 ≤ imwriteJpegQuality := by
  refine ⟨?_, rfl, le_refl 95⟩
  simp [attemptSucceeds, htool, cvAttemptOk, hopen]

/-- An attempt environment with the external tool failing and the decoder
succeeding. -/
def cvOnlyAttempt : AttemptEnv := ⟨false, true, fun _ => true, true⟩

/-- Witness for C6: with the tool unavailable, the decode-seek fallback
carries the attempt. -/
theorem decode_seek_fallback_witness :
    attemptSucceeds false 30 10 cvOnlyAttempt = true :=
  ((decode_seek_fallback false 30 10 cvOnlyAttempt rfl rfl).1).mpr ⟨rfl, rfl⟩

/-- C4: `create_pdf` deletes consumed images only after the document write
succeeded: whenever it returns failure nothing was deleted (so assembly can
be retried on the same images), a nonempty deletion list implies success,
and on a successful build and write it returns success — per-file deletion
failures notwithstanding — having deleted exactly the images whose
`os.remove` succeeded. -/
theorem create_pdf_deletes_only_after_write (env : PdfEnv)
    (imgs : List String) (title : String) :
    ((create_pdf env imgs title).ok = false →
      (create_pdf env imgs title).deleted = []) ∧
    ((create_pdf env imgs title).deleted ≠ [] →
      (create_pdf env imgs title).ok = true) ∧
    ((env.buildRaises = true ∨ env.outputRaises = true) →
      (create_pdf env imgs title).ok = false ∧
      (create_pdf env imgs title).deleted = [] ∧
      (create_pdf env imgs title).doc = none) ∧
    (env.buildRaises = false → env.outputRaises = false →
      (create_pdf env imgs title).ok = true ∧
      (create_pdf env imgs title).deleted =
        imgs.filter (fun p => !env.removeFails p) ∧
      (create_pdf env imgs title).doc = some (buildPages imgs title)) := by
  by_cases hb : env.buildRaises = true
  · refine ⟨fun _ => ?_, fun hne => ?_, fun _ => ?_, fun hb2 _ => ?_⟩
    · simp [create_pdf, hb]
    · exact absurd (by simp [create_pdf, hb]) hne
    · simp [create_pdf, hb]
    · exact absurd hb2 (by simp [hb])
  · by_cases ho : env.outputRaises = true
    · refine ⟨fun _ => ?_, fun hne => ?_, fun _ => ?_, fun _ ho2 => ?_⟩
      · simp [create_pdf, hb, ho]
      · exact absurd (by simp [create_pdf, hb, ho]) hne
      · simp [create_pdf, hb, ho]
      · exact absurd ho2 (by simp [ho])
    · refine ⟨fun hok => ?_, fun _ => ?_, fun hor => ?_, fun _ _ => ?_⟩
      · exact absurd hok (by simp [create_pdf, hb, ho])
      · simp [create_pdf, hb, ho]
      · rcases hor with h | h
        · exact absurd h hb
        · exact absurd h ho
      · simp [create_pdf, hb, ho]

/-- A demonstration image path. -/
def demoImage : String := "img_001.jpg"

/-- Witness for C4: with every filesystem call succeeding, the write
succeeds and the consumed image is deleted. -/
theorem create_pdf_deletes_only_after_write_witness :
    (create_pdf okPdfEnv [demoImage] scenarioTitle).ok = true ∧
    (create_pdf okPdfEnv [demoImage] scenarioTitle).deleted = [demoImage] := by
  have h := (create_pdf_deletes_only_after_write okPdfEnv [demoImage]
    scenarioTitle).2.2.2 rfl rfl
  exact ⟨h.1, h.2.1.trans rfl⟩

theorem capture_screenshots_completed (maxRetries : ℕ) (ff isLocal : Bool)
    (probe : ProbeEnv) (env : ℕ → ℕ → AttemptEnv) (ts valid : List ℚ)
    (h1 : probe.ctorRaises = false) (h2 : probe.canOpen = true)
    (h3 : probe.probeRaises = false)
    (hv : validTimestamps
      (probeDuration isLocal probe.fps probe.frameCountRaw probe.posMsec ts)
      ts = valid)
    (hne : valid ≠ []) :
    capture_screenshots maxRetries ff isLocal probe env ts =
      (runCapture maxRetries ff probe.fps env valid).filterMap
        (fun r => r.imagePath) := by
  have hrun : captureRun maxRetries ff isLocal probe env ts =
      CaptureExit.completed (runCapture maxRetries ff probe.fps env valid) := by
    simp [captureRun, h1, h2, h3, hv, hne]
  simp [capture_screenshots, hrun]

theorem scenarioValid :
    validTimestamps
      (probeDuration true okProbe.fps okProbe.frameCountRaw okProbe.posMsec
        (pySort scenarioRequested))
      (pySort scenarioRequested) = [10, 60] := by
  show validTimestamps (probeDuration true 30 3600 0 (pySort scenarioRequested))
    (pySort scenarioRequested) = [10, 60]
  rw [okProbeDuration]
  decide

theorem scenarioImages_eval :
    scenarioImages = ["screenshot_001_10s.jpg", "screenshot_002_60s.jpg"] := by
  have h := capture_screenshots_completed 3 true true okProbe
    (fun _ _ => allOkAttempt) (pySort scenarioRequested) [10, 60] rfl rfl rfl
    scenarioValid (by decide)
  rw [scenarioImages, h]
  decide

/-- C5: for a successful run, the assembled document is the title page
followed by exactly one page per surviving image in list order (page N+1
holds image N); the image list handed over by the capture phase is exactly
the filenames of the Success records with the timestamps preserved in
order, so ascending input timestamps give pages in ascending-timestamp
order; and in the worked scenario (duration 120 s, requested
[10, 130, 60]) the validator drops 130, capture produces the images of 10
and 60 in that order, and the document has 3 pages. -/
theorem document_pages_follow_images (env : PdfEnv) (imgs : List String)
    (title : String) (hb : env.buildRaises = false)
    (ho : env.outputRaises = false) :
    ((create_pdf env imgs title).doc = some (buildPages imgs title) ∧
      (buildPages imgs title).length = imgs.length + 1 ∧
      (∀ n : ℕ, (buildPages imgs title).get? (n + 1) =
        (imgs.get? n).map (fun p => Page.imagePage p))) ∧
    (∀ (maxRetries : ℕ) (ff : Bool) (fps : ℚ) (cenv : ℕ → ℕ → AttemptEnv)
      (ts : List ℚ),
      (runCapture maxRetries ff fps cenv ts).filterMap (fun r => r.imagePath) =
        ((runCapture maxRetries ff fps cenv ts).filter (fun r => r.success)).map
          (fun r => screenshotFilename r.index r.timestamp) ∧
      (runCapture maxRetries ff fps cenv ts).map (fun r => r.timestamp) = ts ∧
      (List.Pairwise (fun a b => a ≤ b) ts →
        List.Pairwise (fun a b => a ≤ b)
          (((runCapture maxRetries ff fps cenv ts).filter
            (fun r => r.success)).map (fun r => r.timestamp)))) ∧
    scenarioImages = ["screenshot_001_10s.jpg", "screenshot_002_60s.jpg"] ∧
    scenarioPages.length = 3 := by
  refine ⟨⟨?_, ?_, ?_⟩, ?_, scenarioImages_eval, ?_⟩
  · simp [create_pdf, hb, ho]
  · simp [buildPages]
  · intro n
    simp [buildPages, List.get?_map]
  · intro maxRetries ff fps cenv ts
    refine ⟨?_, ?_, ?_⟩
    · exact runCaptureAux_filterMap_imagePath maxRetries ff fps cenv ts 0
    · exact runCaptureAux_map_timestamp maxRetries ff fps cenv ts 0
    · intro hp
      have hsub :
          List.Sublist
            (((runCapture maxRetries ff fps cenv ts).filter
              (fun r => r.success)).map (fun r => r.timestamp))
            ((runCapture maxRetries ff fps cenv ts).map (fun r => r.timestamp)) :=
        List.Sublist.map (fun r => r.timestamp)
          (List.filter_sublist (runCapture maxRetries ff fps cenv ts))
      rw [show (runCapture maxRetries ff fps cenv ts).map (fun r => r.timestamp) = ts from
        runCaptureAux_map_timestamp maxRetries ff fps cenv ts 0] at hsub
      exact hp.sublist hsub
  · simp [scenarioPages, buildPages, scenarioImages_eval]

/-- Witness for C5: the scenario document write succeeds with the expected
page structure. -/
theorem document_pages_follow_images_witness :
    (create_pdf okPdfEnv scenarioImages scenarioTitle).doc =
      some (buildPages scenarioImages scenarioTitle) ∧
    scenarioPages.length = 3 := by
  have h := document_pages_follow_images okPdfEnv scenarioImages scenarioTitle
    rfl rfl
  exact ⟨h.1.1, h.2.2.2⟩

theorem guiValid1 :
    validTimestamps
      (probeDuration true okProbe.fps okProbe.frameCountRaw okProbe.posMsec
        [mkRat 51 5])
      [mkRat 51 5] = [mkRat 51 5] := by
  show validTimestamps (probeDuration true 30 3600 0 [mkRat 51 5])
    [mkRat 51 5] = [mkRat 51 5]
  rw [okProbeDuration]
  decide

theorem guiValid2 :
    validTimestamps
      (probeDuration true okProbe.fps okProbe.frameCountRaw okProbe.posMsec
        [mkRat 107 10])
      [mkRat 107 10] = [mkRat 107 10] := by
  show validTimestamps (probeDuration true 30 3600 0 [mkRat 107 10])
    [mkRat 107 10] = [mkRat 107 10]
  rw [okProbeDuration]
  decide

/-- C7: the per-run output filenames do NOT always satisfy the claimed
uniqueness: the GUI worker (lines 1082-1089) drives `capture_screenshots`
once per timestamp, so the per-run sequence index restarts at 1 on every
call; a GUI run over the two distinct timestamps 10.2 s and 10.7 s — which
share the integer truncation 10 — therefore writes the very same filename
`screenshot_001_10s.jpg` twice, the second capture overwriting the first. -/
theorem gui_run_filename_collision :
    guiWorkerImages 3 true true okProbe (fun _ _ => allOkAttempt)
        [mkRat 51 5, mkRat 107 10] =
      ["screenshot_001_10s.jpg", "screenshot_001_10s.jpg"] ∧
    mkRat 51 5 ≠ mkRat 107 10 ∧ mkRat 51 5 < mkRat 107 10 := by
  refine ⟨?_, by decide, by decide⟩
  have h1 := capture_screenshots_completed 3 true true okProbe
    (fun _ _ => allOkAttempt) [mkRat 51 5] [mkRat 51 5] rfl rfl rfl guiValid1
    (by decide)
  have h2 := capture_screenshots_completed 3 true true okProbe
    (fun _ _ => allOkAttempt) [mkRat 107 10] [mkRat 107 10] rfl rfl rfl
    guiValid2 (by decide)
  rw [guiWorkerImages,
    show pySort [mkRat 51 5, mkRat 107 10] = [mkRat 51 5, mkRat 107 10] from
      by decide]
  simp only [List.foldl]
  rw [h1, h2]
  decide

theorem valid200empty :
    validTimestamps
      (probeDuration true okProbe.fps okProbe.frameCountRaw okProbe.posMsec
        [200])
      [200] = [] := by
  show validTimestamps (probeDuration true 30 3600 0 [200]) [200] = []
  rw [okProbeDuration]
  decide

/-- A probe environment for a source that does not open. -/
def unreadableProbe : ProbeEnv := ⟨false, false, false, 0, 0, 0⟩

/-- Witness for C8: a fully out-of-range request yields no captures, and an
unreadable source yields no captures. -/
theorem empty_or_unreadable_aborts_witness :
    capture_screenshots 3 true true okProbe (fun _ _ => allOkAttempt) [200] =
        [] ∧
    capture_screenshots 3 true true unreadableProbe (fun _ _ => allOkAttempt)
        [10] = [] := by
  constructor
  · exact ((empty_or_unreadable_aborts 3 true true okProbe
      (fun _ _ => allOkAttempt) [200]).1 rfl rfl rfl valid200empty).2
  · exact ((empty_or_unreadable_aborts 3 true true unreadableProbe
      (fun _ _ => allOkAttempt) [10]).2 rfl rfl).2
